import Mathlib

/-! Shallow embedding of the COCO dataset-preparation module (datasets/coco.py):
the annotation normalizer (ConvertCocoPolysToMask), the augmentation-pipeline
construction (make_coco_transforms, build) and the category-catalog restriction
performed by CocoDetection.__init__.  Float tensors are modelled as lists of
rationals, fallible tensor operations return Option, and raised Python errors
are modelled as the error case of Option / Except. -/

/-- One row of a 4-column float tensor; at different stages it holds either
(x, y, width, height) or (x_min, y_min, x_max, y_max). -/
structure Vec4 where
  c0 : ℚ
  c1 : ℚ
  c2 : ℚ
  c3 : ℚ
deriving Repr, DecidableEq

/-- A raw COCO object record; optional JSON keys are Option-valued. -/
structure RawAnn where
  bbox : List ℚ
  category_id : ℤ
  segmentation : List (List ℚ)
  area : ℚ
  iscrowd : Option ℤ
  keypoints : Option (List ℚ)
deriving Repr, DecidableEq

/-- A stack of bitmaps of declared shape (masks.length, height, width); the
bitmap contents come from the external rasterizer and stay abstract (type M). -/
structure MaskStack (M : Type) where
  masks : List M
  height : ℚ
  width : ℚ
deriving Repr

/-- The canonical per-sample target record built by ConvertCocoPolysToMask. -/
structure Target (M : Type) where
  boxes : List Vec4
  labels : List ℤ
  masks : Option (MaskStack M)
  image_id : ℤ
  keypoints : Option (List (List (ℚ × ℚ × ℚ)))
  area : List ℚ
  iscrowd : List ℤ
  orig_size : ℚ × ℚ
  size : ℚ × ℚ
deriving Repr

/-- Binary maximum on ℚ, written out so that it evaluates by reduction. -/
def qmax (a b : ℚ) : ℚ := if a ≤ b then b else a

/-- Binary minimum on ℚ, written out so that it evaluates by reduction. -/
def qmin (a b : ℚ) : ℚ := if a ≤ b then a else b

/-- torch clamp_(min=lo, max=hi): lower bound applied first, then upper. -/
def qclamp (lo hi v : ℚ) : ℚ := qmin (qmax v lo) hi

/-- torch.as_tensor on a list of rows succeeds only when all rows have equal
length. -/
def rectangular : List (List ℚ) → Bool
  | [] => true
  | x :: rest => rest.all (fun y => y.length == x.length)

/-- reshape(-1, 4): regroup a flat float sequence into rows of four, failing
unless the total length is a multiple of four. -/
def chunk4 : List ℚ → Option (List Vec4)
  | [] => some []
  | a :: b :: c :: d :: rest => (chunk4 rest).map (fun r => ⟨a, b, c, d⟩ :: r)
  | _ => none

/-- view(-1, 3) on one row: regroup a flat float sequence into triples. -/
def chunk3 : List ℚ → Option (List (ℚ × ℚ × ℚ))
  | [] => some []
  | a :: b :: c :: rest => (chunk3 rest).map (fun r => (a, b, c) :: r)
  | _ => none

/-- coco.py line 83: an object survives the crowd filter when iscrowd is
absent or equal to 0. -/
def isNotCrowd (a : RawAnn) : Bool :=
  match a.iscrowd with
  | none => true
  | some c => c == 0

/-- coco.py lines 85-90: as_tensor + reshape(-1, 4), then add (x, y) to
(w, h) columns, then clamp x-coordinates to [0, w] and y-coordinates to
[0, h]. -/
def normalizeBoxes (w h : ℚ) (rawBoxes : List (List ℚ)) : Option (List Vec4) :=
  if rectangular rawBoxes then
    match chunk4 rawBoxes.flatten with
    | none => none
    | some rows =>
      some ((rows.map (fun b => Vec4.mk b.c0 b.c1 (b.c2 + b.c0) (b.c3 + b.c1))).map
        (fun b => Vec4.mk (qclamp 0 w b.c0) (qclamp 0 h b.c1)
                   (qclamp 0 w b.c2) (qclamp 0 h b.c3)))
  else none

/-- coco.py line 101: the list comprehension obj["keypoints"] for obj in anno;
a missing key anywhere raises KeyError. -/
def getKeypointsAll : List RawAnn → Option (List (List ℚ))
  | [] => some []
  | a :: rest =>
    match a.keypoints with
    | none => none
    | some k => (getKeypointsAll rest).map (fun r => k :: r)

/-- view(n, -1, 3) row by row: regroup every flat keypoint row into triples,
failing unless each row length is divisible by three. -/
def chunk3All : List (List ℚ) → Option (List (List (ℚ × ℚ × ℚ)))
  | [] => some []
  | l :: rest =>
    match chunk3 l with
    | none => none
    | some c => (chunk3All rest).map (fun r => c :: r)

/-- coco.py lines 99-105: the keypoints field is built only when the object
list is nonempty and its FIRST object carries the key; every object must then
carry it (KeyError otherwise), as_tensor needs equal flat lengths, and
view(n, -1, 3) needs each flat length divisible by three. -/
def extractKeypoints : List RawAnn → Option (Option (List (List (ℚ × ℚ × ℚ))))
  | [] => some none
  | a0 :: rest =>
    match a0.keypoints with
    | none => some none
    | some _ =>
      match getKeypointsAll (a0 :: rest) with
      | none => none
      | some kls =>
        if rectangular kls then
          match chunk3All kls with
          | none => none
          | some chunked => some (some chunked)
        else none

/-- coco.py line 107: keep = (boxes[:, 3] > boxes[:, 1]) & (boxes[:, 2] >
boxes[:, 0]). -/
def keepMask (boxes0 : List Vec4) : List Bool :=
  boxes0.map (fun b => decide (b.c3 > b.c1) && decide (b.c2 > b.c0))

/-- Boolean-mask tensor indexing t[keep]; a length mismatch between the mask
and the indexed tensor is a hard error. -/
def applyKeep {α : Type} : List Bool → List α → Option (List α)
  | [], [] => some []
  | k :: ks, x :: xs => (applyKeep ks xs).map (fun r => if k then x :: r else r)
  | _, _ => none

/-- coco.py lines 54-68 and 95-97, 110-111: rasterize each object's
segmentation through the external rasterizer, stack with declared shape
(n, h, w) (the empty stack being zeros((0, h, w))), then index by the keep
mask; the whole field is absent when return_masks is off. -/
def keepMasks {M : Type} (rasterize : List (List ℚ) → ℚ → ℚ → M)
    (return_masks : Bool) (keep : List Bool) (anno : List RawAnn)
    (h w : ℚ) : Option (Option (MaskStack M)) :=
  if return_masks then
    (applyKeep keep (anno.map (fun a => rasterize a.segmentation h w))).map
      (fun ms => some ⟨ms, h, w⟩)
  else some none

/-- coco.py lines 112-113: keypoints[keep], applied only when the field was
built. -/
def keepKps (keep : List Bool) :
    Option (List (List (ℚ × ℚ × ℚ))) → Option (Option (List (List (ℚ × ℚ × ℚ))))
  | none => some none
  | some ks => (applyKeep keep ks).map (fun r => some r)

/-- Body of ConvertCocoPolysToMask.__call__ after the crowd filter
(coco.py lines 85-131), acting on the already filtered object list. -/
def convertFiltered {M : Type} (rasterize : List (List ℚ) → ℚ → ℚ → M)
    (return_masks : Bool) (image_id : ℤ) (w h : ℚ)
    (anno : List RawAnn) : Option (Target M) :=
  (normalizeBoxes w h (anno.map (fun a => a.bbox))).bind (fun boxes0 =>
  (extractKeypoints anno).bind (fun kps0 =>
  (applyKeep (keepMask boxes0) boxes0).bind (fun boxesK =>
  (applyKeep (keepMask boxes0) (anno.map (fun a => a.category_id))).bind (fun classesK =>
  (keepMasks rasterize return_masks (keepMask boxes0) anno h w).bind (fun masksK =>
  (keepKps (keepMask boxes0) kps0).bind (fun kpsK =>
  (applyKeep (keepMask boxes0) (anno.map (fun a => a.area))).bind (fun areaK =>
  (applyKeep (keepMask boxes0) (anno.map (fun a => a.iscrowd.getD 0))).bind (fun iscrowdK =>
  some { boxes := boxesK, labels := classesK, masks := masksK,
         image_id := image_id, keypoints := kpsK, area := areaK,
         iscrowd := iscrowdK, orig_size := (h, w), size := (h, w) }))))))))

/-- ConvertCocoPolysToMask.__call__ (coco.py lines 75-133): crowd filter,
then the index-synchronized field pipeline; (w, h) is image.size. -/
def convertCocoPolysToMask {M : Type} (rasterize : List (List ℚ) → ℚ → ℚ → M)
    (return_masks : Bool) (image_id : ℤ) (w h : ℚ)
    (annos : List RawAnn) : Option (Target M) :=
  convertFiltered rasterize return_masks image_id w h (annos.filter isNotCrowd)

/-- A RandomResize size entry: a bare int or an (h, w) pair. -/
inductive RSize where
  | single (s : ℕ)
  | pair (a b : ℕ)

/-- A transform-pipeline step as configured in make_coco_transforms; only the
construction-time structure is modelled, not the randomized application. -/
inductive Step where
  | toTensor
  | normalizeChannels (mean std : List ℚ)
  | randomHorizontalFlip
  | randomResize (sizes : List RSize) (maxSize : Option ℕ)
  | randomSizeCrop (minSize maxSize : ℕ)
  | randomSelect (a b : Step)
  | compose (steps : List Step)

/-- coco.py lines 137-141: the shared terminal ToTensor + Normalize block. -/
def normalizeStep : Step :=
  Step.compose [Step.toTensor,
    Step.normalizeChannels [485/1000, 456/1000, 406/1000] [229/1000, 224/1000, 225/1000]]

/-- coco.py line 143: the train-time resize scales. -/
def coco_scales : List ℕ := [480, 512, 544, 576, 608, 640, 672, 704, 736, 768, 800]

/-- coco.py lines 135-179: the per-split pipeline table; an unknown split
name raises ValueError. -/
def make_coco_transforms (image_set : String) (fix_size : Bool) : Except String Step :=
  if image_set = "train" then
    Except.ok (Step.compose [
      Step.randomHorizontalFlip,
      Step.randomSelect
        (Step.randomResize (coco_scales.map RSize.single) (some 1333))
        (Step.compose [
          Step.randomResize ([400, 500, 600].map RSize.single) none,
          Step.randomSizeCrop 384 600,
          Step.randomResize (coco_scales.map RSize.single) (some 1333)]),
      normalizeStep])
  else if image_set = "extra" then
    if fix_size then
      Except.ok (Step.compose [
        Step.randomHorizontalFlip,
        Step.randomResize [RSize.pair 600 600] none,
        normalizeStep])
    else
      Except.ok (Step.compose [normalizeStep])
  else if image_set = "val" then
    Except.ok (Step.compose [
      Step.randomResize [RSize.single 800] (some 1333),
      normalizeStep])
  else
    Except.error ("unknown " ++ image_set)

/-- Python dict lookup on an association list. -/
def alookup {κ α : Type} [DecidableEq κ] (k : κ) : List (κ × α) → Option α
  | [] => none
  | (k0, v) :: rest => if k = k0 then some v else alookup k rest

/-- coco.py lines 191-197: the PATHS dict of get_paths has exactly the keys
"train" and "val". -/
def get_paths : List (String × (String × String)) :=
  [("train", ("/mnt/thanhpd/MTSD/mtsd_fully_annotated_train_images/images",
              "/mnt/thanhpd/code/mtsd_cl/CL_rtdetr/train_output_file_coco.json")),
   ("val", ("/mnt/thanhpd/MTSD/mtsd_v2_fully_annotated_images.val.zip/images",
            "/mnt/thanhpd/code/mtsd_cl/CL_rtdetr/val_output_file_coco.json"))]

/-- coco.py lines 207-215 (build), pipeline-relevant part: PATHS[image_set]
(KeyError when missing) followed by make_coco_transforms with the fix-size
flag driven by the sampling strategy. -/
def build_pipeline (image_set : String) (sampling_strategy : String) : Except String Step :=
  match alookup image_set get_paths with
  | none => Except.error ("KeyError: " ++ image_set)
  | some _ => make_coco_transforms image_set (sampling_strategy == "icarl")

/-- coco.py lines 33-39, loop body: cats[class_id] = self.coco.cats[class_id]
with KeyError silently swallowed. -/
def catsLoop {C : Type} (store : List (ℤ × C)) : List ℤ → List (ℤ × C)
  | [] => []
  | i :: rest =>
    match alookup i store with
    | some m => (i, m) :: catsLoop store rest
    | none => catsLoop store rest

/-- coco.py lines 32-39: the catalog restriction of CocoDetection.__init__;
iterating over a None class_ids raises TypeError. -/
def initCats {C : Type} (class_ids : Option (List ℤ)) (store : List (ℤ × C)) :
    Except String (List (ℤ × C)) :=
  match class_ids with
  | none => Except.error "TypeError: NoneType object is not iterable"
  | some ids => Except.ok (catsLoop store ids)

/-- Success test for Except values. -/
def exceptOk {ε α : Type} : Except ε α → Bool
  | Except.ok _ => true
  | Except.error _ => false

/-- The top-level step list of a constructed pipeline. -/
def pipelineTopSteps : Except String Step → List Step
  | Except.ok (Step.compose l) => l
  | Except.ok s => [s]
  | Except.error _ => []

/-- Whether a step is the horizontal-flip step. -/
def isFlip : Step → Bool
  | Step.randomHorizontalFlip => true
  | _ => false

/-- A successful boolean-mask indexing forces the mask and tensor lengths to
agree. -/
theorem applyKeep_len {α : Type} :
    ∀ (k : List Bool) (xs r : List α), applyKeep k xs = some r → k.length = xs.length
  | [], [], _, _ => rfl
  | [], _ :: _, r, h => by simp [applyKeep] at h
  | _ :: _, [], r, h => by simp [applyKeep] at h
  | b :: ks, x :: xs, r, h => by
    simp only [applyKeep, Option.map_eq_some'] at h
    obtain ⟨r', hr', _⟩ := h
    simpa using applyKeep_len ks xs r' hr'

/-- A successful boolean-mask indexing returns as many entries as the mask
has true entries. -/
theorem applyKeep_count {α : Type} :
    ∀ (k : List Bool) (xs r : List α), applyKeep k xs = some r → r.length = k.count true
  | [], [], r, h => by
    simp only [applyKeep, Option.some.injEq] at h
    subst h
    rfl
  | [], _ :: _, r, h => by simp [applyKeep] at h
  | _ :: _, [], r, h => by simp [applyKeep] at h
  | b :: ks, x :: xs, r, h => by
    simp only [applyKeep, Option.map_eq_some'] at h
    obtain ⟨r', hr', hr⟩ := h
    have ih := applyKeep_count ks xs r' hr'
    subst hr
    cases b <;> simp [List.count_cons, ih]

/-- Successful reshape(-1, 4) consumes a flat sequence whose length is four
times the row count. -/
theorem chunk4_len :
    ∀ (l : List ℚ) (r : List Vec4), chunk4 l = some r → l.length = 4 * r.length
  | [], r, h => by
    simp only [chunk4, Option.some.injEq] at h
    subst h
    rfl
  | a :: b :: c :: d :: rest, r, h => by
    simp only [chunk4, Option.map_eq_some'] at h
    obtain ⟨r', hr', hr⟩ := h
    have ih := chunk4_len rest r' hr'
    subst hr
    simp [ih]
    omega
  | [_], r, h => by simp [chunk4] at h
  | [_, _], r, h => by simp [chunk4] at h
  | [_, _, _], r, h => by simp [chunk4] at h

/-- In a rectangular row list every row has the head row's length. -/
theorem rect_len {x : List ℚ} {rest : List (List ℚ)}
    (hr : rectangular (x :: rest) = true) :
    ∀ y ∈ x :: rest, y.length = x.length := by
  intro y hy
  rcases List.mem_cons.mp hy with rfl | hy
  · rfl
  · have := (List.all_eq_true.mp hr) y hy
    exact beq_iff_eq.mp this

/-- Sum of constant row lengths. -/
theorem sum_map_len_const :
    ∀ (l : List (List ℚ)) (k : ℕ), (∀ y ∈ l, y.length = k) →
      (l.map List.length).sum = l.length * k
  | [], _, _ => by simp
  | y :: rest, k, h => by
    have hy := h y (List.mem_cons_self y rest)
    have ih := sum_map_len_const rest k (fun z hz => h z (List.mem_cons_of_mem y hz))
    simp [hy, ih, Nat.succ_mul, Nat.add_comm]

/-- Flattening a rectangular nonempty row list yields rows x columns
entries. -/
theorem flatten_len_of_rect {x : List ℚ} {rest : List (List ℚ)}
    (hr : rectangular (x :: rest) = true) :
    (x :: rest).flatten.length = (x :: rest).length * x.length := by
  rw [List.length_flatten]
  exact sum_map_len_const _ _ (rect_len hr)

/-- Characterization of a successful box normalization. -/
theorem normalizeBoxes_some {w h : ℚ} {rb : List (List ℚ)} {boxes0 : List Vec4}
    (hn : normalizeBoxes w h rb = some boxes0) :
    rectangular rb = true ∧
      ∃ rows, chunk4 rb.flatten = some rows ∧ boxes0.length = rows.length := by
  by_cases hr : rectangular rb = true
  · refine ⟨hr, ?_⟩
    rw [normalizeBoxes, if_pos hr] at hn
    cases hch : chunk4 rb.flatten with
    | none => rw [hch] at hn; cases hn
    | some rows =>
      rw [hch] at hn
      simp only [Option.some.injEq] at hn
      exact ⟨rows, rfl, by simp [← hn]⟩
  · rw [normalizeBoxes, if_neg hr] at hn
    cases hn

/-- The keep mask has one entry per box row. -/
theorem keepMask_len (boxes0 : List Vec4) : (keepMask boxes0).length = boxes0.length := by
  simp [keepMask]

/-- Unfolding of a successful run of the normalizer: every produced field is
the image of the shared keep mask. -/
theorem convert_spec {M : Type} {raster : List (List ℚ) → ℚ → ℚ → M}
    {rm : Bool} {iid : ℤ} {w h : ℚ} {anns : List RawAnn} {t : Target M}
    (hc : convertCocoPolysToMask raster rm iid w h anns = some t) :
    ∃ boxes0 kps0,
      normalizeBoxes w h ((anns.filter isNotCrowd).map (fun a => a.bbox)) = some boxes0 ∧
      extractKeypoints (anns.filter isNotCrowd) = some kps0 ∧
      applyKeep (keepMask boxes0) boxes0 = some t.boxes ∧
      applyKeep (keepMask boxes0) ((anns.filter isNotCrowd).map (fun a => a.category_id)) =
        some t.labels ∧
      keepMasks raster rm (keepMask boxes0) (anns.filter isNotCrowd) h w = some t.masks ∧
      keepKps (keepMask boxes0) kps0 = some t.keypoints ∧
      applyKeep (keepMask boxes0) ((anns.filter isNotCrowd).map (fun a => a.area)) =
        some t.area ∧
      applyKeep (keepMask boxes0) ((anns.filter isNotCrowd).map (fun a => a.iscrowd.getD 0)) =
        some t.iscrowd := by
  simp only [convertCocoPolysToMask, convertFiltered, Option.bind_eq_some,
    Option.some.injEq] at hc
  obtain ⟨boxes0, hb0, kps0, hk0, boxesK, hbK, classesK, hcK, masksK, hmK,
    kpsK, hkK, areaK, haK, iscrowdK, hiK, ht⟩ := hc
  subst ht
  exact ⟨boxes0, kps0, hb0, hk0, hbK, hcK, hmK, hkK, haK, hiK⟩

/-- With mask mode on, a produced masks field is the keep-mask image of the
rasterized stack, with the declared (height, width) preserved. -/
theorem keepMasks_some_true {M : Type} {raster : List (List ℚ) → ℚ → ℚ → M}
    {keep : List Bool} {anno : List RawAnn} {h w : ℚ} {mk : Option (MaskStack M)}
    (hm : keepMasks raster true keep anno h w = some mk) :
    ∃ ms, applyKeep keep (anno.map (fun a => raster a.segmentation h w)) = some ms ∧
      mk = some ⟨ms, h, w⟩ := by
  simp only [keepMasks, if_true, Option.map_eq_some'] at hm
  obtain ⟨ms, hms, rfl⟩ := hm
  exact ⟨ms, hms, rfl⟩

/-- With mask mode off the masks field is absent. -/
theorem keepMasks_some_false {M : Type} {raster : List (List ℚ) → ℚ → ℚ → M}
    {keep : List Bool} {anno : List RawAnn} {h w : ℚ} {mk : Option (MaskStack M)}
    (hm : keepMasks raster false keep anno h w = some mk) : mk = none := by
  simp only [keepMasks, Bool.false_eq_true, if_false, Option.some.injEq] at hm
  exact hm.symm

/-- Applying the keep mask to the keypoints field preserves its
presence/absence. -/
theorem keepKps_isSome {keep : List Bool} {kps0 : Option (List (List (ℚ × ℚ × ℚ)))}
    {r : Option (List (List (ℚ × ℚ × ℚ)))}
    (h : keepKps keep kps0 = some r) : r.isSome = kps0.isSome := by
  cases kps0 with
  | none =>
    simp only [keepKps, Option.some.injEq] at h
    subst h
    rfl
  | some ks =>
    simp only [keepKps, Option.map_eq_some'] at h
    obtain ⟨ks', _, hr⟩ := h
    subst hr
    rfl

/-- The built keypoints field is present exactly when the filtered list is
nonempty and its first object carries the key. -/
theorem extractKeypoints_isSome {anno : List RawAnn}
    {kps0 : Option (List (List (ℚ × ℚ × ℚ)))}
    (h : extractKeypoints anno = some kps0) :
    kps0.isSome = (anno.head?.bind (fun a => a.keypoints)).isSome := by
  cases anno with
  | nil =>
    simp only [extractKeypoints, Option.some.injEq] at h
    subst h
    rfl
  | cons a0 rest =>
    cases hk : a0.keypoints with
    | none =>
      simp only [extractKeypoints, hk, Option.some.injEq] at h
      subst h
      simp [hk]
    | some k0 =>
      simp only [extractKeypoints, hk] at h
      cases hm : getKeypointsAll (a0 :: rest) with
      | none => simp [hm] at h
      | some kls =>
        simp only [hm] at h
        by_cases hr : rectangular kls = true
        · simp only [hr, if_true] at h
          cases hc : chunk3All kls with
          | none => simp [hc] at h
          | some chunked =>
            simp only [hc, Option.some.injEq] at h
            subst h
            simp [hk]
        · simp [hr] at h

/-- Trivial rasterizer collaborator used on concrete inputs; mask bitmap
contents are external and irrelevant to the stated claims. -/
def r0 : List (List ℚ) → ℚ → ℚ → Unit := fun _ _ _ => ()

/-- Fallback target used with Option.getD on concrete runs. -/
def dTarget : Target Unit := ⟨[], [], none, 0, none, [], [], (0, 0), (0, 0)⟩

/-- C1: for every image and raw annotation list, a Target produced by
ConvertCocoPolysToMask has boxes, labels, area and iscrowd of one common
length, and a present masks or keypoints field has the same leading
dimension, because the one keep mask (height > 0 and width > 0) is applied
to every index-aligned field; this covers zero-object results as well. -/
theorem claim_C1 {M : Type} (raster : List (List ℚ) → ℚ → ℚ → M)
    (rm : Bool) (iid : ℤ) (w h : ℚ) (anns : List RawAnn) (t : Target M)
    (hc : convertCocoPolysToMask raster rm iid w h anns = some t) :
    t.labels.length = t.boxes.length ∧
    t.area.length = t.boxes.length ∧
    t.iscrowd.length = t.boxes.length ∧
    (∀ st : MaskStack M, t.masks = some st → st.masks.length = t.boxes.length) ∧
    (∀ ks, t.keypoints = some ks → ks.length = t.boxes.length) := by
  obtain ⟨boxes0, kps0, hb0, hk0, hbK, hcK, hmK, hkK, haK, hiK⟩ := convert_spec hc
  have hb := applyKeep_count _ _ _ hbK
  have hcc := applyKeep_count _ _ _ hcK
  have ha := applyKeep_count _ _ _ haK
  have hi := applyKeep_count _ _ _ hiK
  refine ⟨by rw [hcc, hb], by rw [ha, hb], by rw [hi, hb], ?_, ?_⟩
  · intro st hst
    cases rm with
    | false =>
      rw [keepMasks_some_false hmK] at hst
      cases hst
    | true =>
      obtain ⟨ms, hms, hmk⟩ := keepMasks_some_true hmK
      rw [hmk] at hst
      injection hst with hst
      subst hst
      rw [applyKeep_count _ _ _ hms, hb]
  · intro ks hks
    cases kps0 with
    | none =>
      simp only [keepKps, Option.some.injEq] at hkK
      rw [← hkK] at hks
      cases hks
    | some ks0 =>
      simp only [keepKps, Option.map_eq_some'] at hkK
      obtain ⟨ks', hks', hk2⟩ := hkK
      rw [← hk2] at hks
      injection hks with hks
      subst hks
      rw [applyKeep_count _ _ _ hks', hb]

/-- Concrete annotation pair for the C1 witness: one valid object and one
degenerate (zero-height) object, both with masks and keypoints. -/
def annK1 : RawAnn := ⟨[10, 10, 5, 5], 1, [[0, 0, 1, 0, 1, 1]], 25, some 0, some [1, 2, 3]⟩

/-- Second object of the C1 witness input. -/
def annK2 : RawAnn := ⟨[0, 0, 3, 0], 2, [[0, 0, 2, 0, 2, 2]], 0, none, some [4, 5, 6]⟩

/-- The target the normalizer produces on the C1 witness input. -/
def tC1 : Target Unit := (convertCocoPolysToMask r0 true 7 640 480 [annK1, annK2]).getD dTarget

theorem claim_C1_witness :
    tC1.labels.length = tC1.boxes.length ∧
    tC1.area.length = tC1.boxes.length ∧
    tC1.iscrowd.length = tC1.boxes.length ∧
    ([()] : List Unit).length = tC1.boxes.length ∧
    ([[((1 : ℚ), (2 : ℚ), (3 : ℚ))]]).length = tC1.boxes.length :=
  ⟨(claim_C1 r0 true 7 640 480 [annK1, annK2] tC1 (by with_unfolding_all rfl)).1,
   (claim_C1 r0 true 7 640 480 [annK1, annK2] tC1 (by with_unfolding_all rfl)).2.1,
   (claim_C1 r0 true 7 640 480 [annK1, annK2] tC1 (by with_unfolding_all rfl)).2.2.1,
   (claim_C1 r0 true 7 640 480 [annK1, annK2] tC1 (by with_unfolding_all rfl)).2.2.2.1 ⟨[()], 480, 640⟩ (by with_unfolding_all rfl),
   (claim_C1 r0 true 7 640 480 [annK1, annK2] tC1 (by with_unfolding_all rfl)).2.2.2.2 [[(1, 2, 3)]] (by with_unfolding_all rfl)⟩

/-- The zero-height annotation of spec property 7. -/
def annC2 : RawAnn := ⟨[100, 100, 50, 0], 3, [], 0, some 0, none⟩

/-- C2: on a 640x480 image with the single raw annotation
bbox [100, 100, 50, 0], category 3, area 0, iscrowd 0, the normalizer
returns a Target whose boxes, labels, area and iscrowd all have length 0:
the degenerate box is dropped by the keep mask. -/
theorem claim_C2 :
    ∃ t : Target Unit, convertCocoPolysToMask r0 false 1 640 480 [annC2] = some t ∧
      t.boxes.length = 0 ∧ t.labels.length = 0 ∧ t.area.length = 0 ∧ t.iscrowd.length = 0 :=
  ⟨⟨[], [], none, 1, none, [], [], (480, 640), (480, 640)⟩,
    by with_unfolding_all rfl, rfl, rfl, rfl, rfl⟩

/-- Rows of exactly four entries form a rectangular list. -/
theorem rect_quad (l : List Vec4) :
    rectangular (l.map (fun v => [v.c0, v.c1, v.c2, v.c3])) = true := by
  cases l with
  | nil => rfl
  | cons v rest =>
    simp only [List.map_cons, rectangular, List.all_eq_true]
    intro y hy
    obtain ⟨u, _, rfl⟩ := List.mem_map.mp hy
    rfl

/-- reshape(-1, 4) recovers the rows a flat quad list came from. -/
theorem chunk4_quad : ∀ l : List Vec4,
    chunk4 ((l.map (fun v => [v.c0, v.c1, v.c2, v.c3])).flatten) = some l
  | [] => rfl
  | v :: rest => by
    simp only [List.map_cons, List.flatten_cons, List.cons_append, List.nil_append]
    simp [chunk4, chunk4_quad rest]

/-- The valid annotation of spec property 8. -/
def annC3 : RawAnn := ⟨[100, 100, 50, 60], 3, [], 3000, some 0, none⟩

/-- C3: every non-crowd bbox (x, y, w, h) is converted to
(x, y, x + w, y + h) with x-coordinates clamped to [0, image width] and
y-coordinates clamped to [0, image height]; in particular the annotation
bbox [100, 100, 50, 60] on a 640x480 image normalizes to the single box
(100, 100, 150, 160). -/
theorem claim_C3 :
    (∀ (w h : ℚ) (l : List Vec4),
      normalizeBoxes w h (l.map (fun v => [v.c0, v.c1, v.c2, v.c3])) =
        some (l.map (fun v => Vec4.mk (qclamp 0 w v.c0) (qclamp 0 h v.c1)
          (qclamp 0 w (v.c0 + v.c2)) (qclamp 0 h (v.c1 + v.c3))))) ∧
    (∃ t : Target Unit, convertCocoPolysToMask r0 false 1 640 480 [annC3] = some t ∧
      t.boxes = [Vec4.mk 100 100 150 160]) := by
  constructor
  · intro w h l
    rw [normalizeBoxes, if_pos (rect_quad l), chunk4_quad l]
    simp only [List.map_map, Option.some.injEq]
    refine List.map_congr_left ?_
    intro v _
    simp only [Function.comp]
    rw [add_comm v.c2 v.c0, add_comm v.c3 v.c1]
  · exact ⟨⟨[Vec4.mk 100 100 150 160], [3], none, 1, none, [3000], [0], (480, 640), (480, 640)⟩,
      by with_unfolding_all rfl, rfl⟩

/-- First object of the C4 counterexample: valid box, no keypoints key. -/
def annNoKp : RawAnn := ⟨[5, 5, 2, 2], 1, [], 4, none, none⟩

/-- Second object of the C4 counterexample: valid box, carries keypoints. -/
def annKp2 : RawAnn := ⟨[0, 0, 2, 2], 2, [], 4, none, some [1, 2, 3]⟩

/-- The target produced on the C4 counterexample input. -/
def tC4 : Target Unit :=
  (convertCocoPolysToMask r0 false 1 640 480 [annNoKp, annKp2]).getD dTarget

/-- C4 counterexample: an annotation list whose SECOND object carries
keypoints while the first does not is normalized with no keypoints field at
all, refuting the claim that the presence test quantifies over any object in
the list. -/
theorem claim_C4_counterexample :
    annKp2.keypoints.isSome = true ∧
    convertCocoPolysToMask r0 false 1 640 480 [annNoKp, annKp2] = some tC4 ∧
    tC4.keypoints = none ∧
    tC4.boxes.length = 2 :=
  ⟨rfl, by with_unfolding_all rfl, by with_unfolding_all rfl, by with_unfolding_all rfl⟩

/-- C4 (amended): the normalized Target carries a keypoints field exactly
when the post-crowd-filter list is nonempty and its FIRST object carries the
keypoints key; when the first object lacks it the field is absent even if a
later object carries keypoints. -/
theorem claim_C4_amended {M : Type} (raster : List (List ℚ) → ℚ → ℚ → M)
    (rm : Bool) (iid : ℤ) (w h : ℚ) (anns : List RawAnn) (t : Target M)
    (hc : convertCocoPolysToMask raster rm iid w h anns = some t) :
    t.keypoints.isSome =
      ((anns.filter isNotCrowd).head?.bind (fun a => a.keypoints)).isSome := by
  obtain ⟨boxes0, kps0, hb0, hk0, hbK, hcK, hmK, hkK, haK, hiK⟩ := convert_spec hc
  rw [keepKps_isSome hkK, extractKeypoints_isSome hk0]

/-- Single keypoint-carrying object used for the C4 witness. -/
def annKpW : RawAnn := ⟨[0, 0, 2, 2], 2, [], 4, none, some [1, 2, 3]⟩

/-- The target produced on the C4 witness input. -/
def tC4w : Target Unit := (convertCocoPolysToMask r0 false 1 640 480 [annKpW]).getD dTarget

theorem claim_C4_witness :
    tC4w.keypoints.isSome =
      (([annKpW].filter isNotCrowd).head?.bind (fun a => a.keypoints)).isSome :=
  claim_C4_amended r0 false 1 640 480 [annKpW] tC4w (by with_unfolding_all rfl)

/-- C5 counterexample: for the third split mode with the fixed-size flag
unset, the constructed pipeline is normalize only and contains no horizontal
flip step, refuting the claim that the flip is present regardless of the
flag. -/
theorem claim_C5_counterexample :
    make_coco_transforms "extra" false = Except.ok (Step.compose [normalizeStep]) ∧
    (pipelineTopSteps (make_coco_transforms "extra" false)).any isFlip = false :=
  ⟨rfl, rfl⟩

/-- C5 (amended): for the third split mode, with the fixed-size flag set the
pipeline is flip, then a fixed 600x600 resize, then normalize; with the flag
unset it is normalize only — the flip step is present only when the
fixed-size flag is set. -/
theorem claim_C5_amended :
    make_coco_transforms "extra" true = Except.ok (Step.compose
      [Step.randomHorizontalFlip, Step.randomResize [RSize.pair 600 600] none,
       normalizeStep]) ∧
    make_coco_transforms "extra" false = Except.ok (Step.compose [normalizeStep]) ∧
    (pipelineTopSteps (make_coco_transforms "extra" true)).any isFlip = true ∧
    (pipelineTopSteps (make_coco_transforms "extra" false)).any isFlip = false :=
  ⟨rfl, rfl, rfl, rfl⟩

/-- C6: constructing the view with class_ids omitted (None) does NOT succeed:
the catalog-restriction loop iterates over the None value and raises
TypeError, while a provided set succeeds; the spec claim that None is
accepted with an unrestricted catalog is right about the intent (None is the
declared default) but the code crashes on it. -/
theorem claim_C6 :
    exceptOk (initCats none [((5 : ℤ), "category five"), ((7 : ℤ), "category seven")])
      = false ∧
    exceptOk (initCats (some [5]) [((5 : ℤ), "category five"), ((7 : ℤ), "category seven")])
      = true :=
  ⟨rfl, rfl⟩

/-- C7: an empty annotation list (or one whose every object is filtered out)
is not an error: the normalizer returns a Target with zero-row boxes, an
empty mask stack still carrying the declared (0, height, width) shape, and
empty labels, area and iscrowd. -/
theorem claim_C7 {M : Type} (raster : List (List ℚ) → ℚ → ℚ → M) (iid : ℤ) (w h : ℚ) :
    (∃ t : Target M, convertCocoPolysToMask raster true iid w h [] = some t ∧
      t.boxes = [] ∧ t.labels = [] ∧ t.area = [] ∧ t.iscrowd = [] ∧
      t.masks = some ⟨[], h, w⟩) ∧
    (∀ (anns : List RawAnn) (t : Target M),
      convertCocoPolysToMask raster true iid w h anns = some t → t.boxes = [] →
      t.labels = [] ∧ t.area = [] ∧ t.iscrowd = [] ∧ t.masks = some ⟨[], h, w⟩) := by
  constructor
  · exact ⟨⟨[], [], some ⟨[], h, w⟩, iid, none, [], [], (h, w), (h, w)⟩,
      rfl, rfl, rfl, rfl, rfl, rfl⟩
  · intro anns t hc hbx
    obtain ⟨boxes0, kps0, hb0, hk0, hbK, hcK, hmK, hkK, haK, hiK⟩ := convert_spec hc
    have hb := applyKeep_count _ _ _ hbK
    rw [hbx] at hb
    simp only [List.length_nil] at hb
    have hlab := applyKeep_count _ _ _ hcK
    have harea := applyKeep_count _ _ _ haK
    have hisc := applyKeep_count _ _ _ hiK
    rw [← hb] at hlab harea hisc
    refine ⟨List.length_eq_zero.mp hlab, List.length_eq_zero.mp harea,
      List.length_eq_zero.mp hisc, ?_⟩
    obtain ⟨ms, hms, hmk⟩ := keepMasks_some_true hmK
    have hmsl := applyKeep_count _ _ _ hms
    rw [← hb] at hmsl
    rw [hmk, List.length_eq_zero.mp hmsl]

/-- Crowd-only annotation used for the C7 witness. -/
def annCrowd : RawAnn := ⟨[1, 2, 3, 4], 9, [], 5, some 1, none⟩

/-- The target produced on the C7 witness input. -/
def tC7 : Target Unit := (convertCocoPolysToMask r0 true 1 640 480 [annCrowd]).getD dTarget

theorem claim_C7_witness :
    tC7.labels = [] ∧ tC7.area = [] ∧ tC7.iscrowd = [] ∧
      tC7.masks = some ⟨[], 480, 640⟩ :=
  (claim_C7 r0 1 640 480).2 [annCrowd] tC7 (by with_unfolding_all rfl)
    (by with_unfolding_all rfl)

/-- Crowd annotation with a malformed bbox used for the C8 counterexample. -/
def annBadCrowd : RawAnn := ⟨[1, 2, 3], 9, [], 5, some 1, none⟩

/-- C8 counterexample: a crowd annotation with a three-component bbox is
dropped by the crowd filter before its bbox is ever read, so normalization
succeeds, refuting the claim that EVERY wrong-arity bbox aborts the fetch. -/
theorem claim_C8_counterexample :
    annBadCrowd.bbox.length ≠ 4 ∧
    (convertCocoPolysToMask r0 false 1 640 480 [annBadCrowd]).isSome = true :=
  ⟨by decide, by with_unfolding_all rfl⟩

/-- C8 (amended): for every raw annotation that SURVIVES the crowd filter and
whose bbox does not have exactly four components, normalization is a hard
error (the tensor construction, the reshape, or the keep-mask indexing
fails); a Target is never produced from such a list. -/
theorem claim_C8_amended {M : Type} (raster : List (List ℚ) → ℚ → ℚ → M)
    (rm : Bool) (iid : ℤ) (w h : ℚ) (anns : List RawAnn) (a : RawAnn)
    (ha : a ∈ anns.filter isNotCrowd) (hlen : a.bbox.length ≠ 4) :
    convertCocoPolysToMask raster rm iid w h anns = none := by
  cases hc : convertCocoPolysToMask raster rm iid w h anns with
  | none => rfl
  | some t =>
    exfalso
    obtain ⟨boxes0, kps0, hb0, hk0, hbK, hcK, hmK, hkK, haK, hiK⟩ := convert_spec hc
    obtain ⟨hrect, rows, hch, hlen0⟩ := normalizeBoxes_some hb0
    have hmem : a.bbox ∈ (anns.filter isNotCrowd).map (fun x => x.bbox) :=
      List.mem_map_of_mem _ ha
    cases hrb : (anns.filter isNotCrowd).map (fun x => x.bbox) with
    | nil => rw [hrb] at hmem; cases hmem
    | cons x rest =>
      rw [hrb] at hrect hch hmem
      have hk : a.bbox.length = x.length := rect_len hrect _ hmem
      have hx4 : x.length ≠ 4 := fun hx => hlen (hk.trans hx)
      have hjoin := flatten_len_of_rect hrect
      have hch4 := chunk4_len _ _ hch
      have hkl := applyKeep_len _ _ _ hcK
      rw [keepMask_len, hlen0, List.length_map] at hkl
      have hfl : (anns.filter isNotCrowd).length = (x :: rest).length := by
        rw [← List.length_map (anns.filter isNotCrowd) (fun x => x.bbox), hrb]
      rw [hfl] at hkl
      rw [hjoin] at hch4
      rw [hkl] at hch4
      rw [Nat.mul_comm 4 (x :: rest).length] at hch4
      have hpos : 0 < (x :: rest).length := by simp
      exact hx4 (Nat.eq_of_mul_eq_mul_left hpos hch4)

/-- Non-crowd annotation with a malformed bbox used for the C8 witness. -/
def annBad : RawAnn := ⟨[1, 2, 3], 9, [], 5, none, none⟩

theorem claim_C8_witness :
    convertCocoPolysToMask r0 false 1 640 480 [annBad] = none :=
  claim_C8_amended r0 false 1 640 480 [annBad] annBad (by decide) (by decide)

/-- C9: every split name outside the known set (train, extra, val) is a hard
construction error, both in make_coco_transforms (ValueError) and in build
(which first hits a KeyError in the PATHS table); no unknown split is
silently defaulted. -/
theorem claim_C9 (s : String) (fs : Bool) (strat : String)
    (h1 : s ≠ "train") (h2 : s ≠ "extra") (h3 : s ≠ "val") :
    exceptOk (make_coco_transforms s fs) = false ∧
    exceptOk (build_pipeline s strat) = false := by
  constructor
  · simp [make_coco_transforms, h1, h2, h3, exceptOk]
  · have hlk : alookup s get_paths = none := by
      simp [alookup, get_paths, h1, h3]
    simp [build_pipeline, hlk, exceptOk]

theorem claim_C9_witness :
    exceptOk (make_coco_transforms "test" false) = false ∧
    exceptOk (build_pipeline "test" "icarl") = false :=
  claim_C9 "test" false "icarl" (by decide) (by decide) (by decide)

/-- C10: a provided class_ids set never errors, the exposed catalog holds
exactly the ids present in both class_ids and the store's catalog, and in
particular requesting the set containing 5 and 999 against a store that only
knows id 5 yields the catalog with id 5 alone. -/
theorem claim_C10 :
    (∀ (C : Type) (ids : List ℤ) (store : List (ℤ × C)),
      exceptOk (initCats (some ids) store) = true) ∧
    (∀ (C : Type) (ids : List ℤ) (store : List (ℤ × C)) (i : ℤ) (m : C),
      ((i, m) ∈ catsLoop store ids ↔ i ∈ ids ∧ alookup i store = some m)) ∧
    initCats (some [5, 999]) [((5 : ℤ), "category five")] =
      Except.ok [((5 : ℤ), "category five")] := by
  refine ⟨fun C ids store => rfl, ?_, rfl⟩
  intro C ids store i m
  induction ids with
  | nil => simp [catsLoop]
  | cons j rest ih =>
    cases hj : alookup j store with
    | none =>
      simp only [catsLoop, hj, List.mem_cons]
      rw [ih]
      constructor
      · rintro ⟨hi, hlk⟩
        exact ⟨Or.inr hi, hlk⟩
      · rintro ⟨hij | hi, hlk⟩
        · subst hij
          rw [hj] at hlk
          cases hlk
        · exact ⟨hi, hlk⟩
    | some mv =>
      simp only [catsLoop, hj, List.mem_cons, ih, Prod.mk.injEq]
      constructor
      · rintro (⟨rfl, rfl⟩ | ⟨hi, hlk⟩)
        · exact ⟨Or.inl rfl, hj⟩
        · exact ⟨Or.inr hi, hlk⟩
      · rintro ⟨hij | hi, hlk⟩
        · subst hij
          rw [hj] at hlk
          injection hlk with hlk
          exact Or.inl ⟨rfl, hlk.symm⟩
        · exact Or.inr ⟨hi, hlk⟩
